import Mathlib

/-!
Shallow embedding of the goGFS master (src/gfs/master/master.go) and proofs
about its chunk/lease/replica coordination behaviour.

The master's collaborators (chunkManager, chunkServerManager, namespaceManager,
the RPC transport) live outside the provided sources, so every call into them
is modelled as an oracle supplied in an environment record; the control flow of
master.go itself — which call happens, in which order, and how its error result
is handled — is translated faithfully.  Each embedded operation additionally
returns the list of downstream calls it performed, so that theorems can speak
about which effects the master actually issued.
-/

namespace GoGFS

/-- Storage-node address (`gfs.ServerAddress`). -/
abbrev ServerAddress := String

/-- Chunk handle (`gfs.ChunkHandle`), a unique identifier for a chunk. -/
abbrev ChunkHandle := Nat

/-- Error kinds of the system, following the spec's error taxonomy plus a
catch-all for `fmt.Errorf`-style string errors used in master.go. -/
inductive GfsError where
  | notFound
  | noAvailableServers
  | invalidRequest
  | downstreamFailure
  | other (msg : String)
deriving DecidableEq, Repr

/-! ## Background maintenance cycle (`Master.backgroundActivity`, master.go lines 102-130) -/

/-- Environment for one run of `backgroundActivity`: the answers of the
collaborators it consults. `removeServer` is `csm.RemoveServer`; `needlist`
is `cm.GetNeedlist()`; `expireOf` gives each chunk's `expire` field;
`reReplicationResult` is the outcome of `m.reReplication` for a handle. -/
structure BackgroundEnv where
  detectDeadServers : List ServerAddress
  removeServer : ServerAddress → Except GfsError (List ChunkHandle)
  needlist : List ChunkHandle
  expireOf : ChunkHandle → Nat
  now : Nat
  reReplicationResult : ChunkHandle → Option GfsError

/-- Observable outcome of one `backgroundActivity` run: which dead addresses
had `RemoveServer` called on them, which `RemoveChunks(handles, addr)` scrub
calls were made, which repair attempts ran (with their logged-and-ignored
results), and the error returned by the cycle. -/
structure BackgroundResult where
  removeServerCalls : List ServerAddress
  removeChunksCalls : List (List ChunkHandle × ServerAddress)
  repairs : List (ChunkHandle × Option GfsError)
  err : Option GfsError
deriving DecidableEq, Repr

/-- The dead-node sweep loop of `backgroundActivity` (lines 105-112): for each
dead address call `RemoveServer`; on error return it immediately (the remaining
addresses are not visited); on success call `RemoveChunks(handles, v)` and
continue.  Returns (addresses RemoveServer was called on, RemoveChunks calls
made, error returned from the loop). -/
def sweepLoop (removeServer : ServerAddress → Except GfsError (List ChunkHandle)) :
    List ServerAddress →
      List ServerAddress × List (List ChunkHandle × ServerAddress) × Option GfsError
  | [] => ([], [], none)
  | v :: rest =>
    match removeServer v with
    | .error e => ([v], [], some e)
    | .ok handles =>
      let r := sweepLoop removeServer rest
      (v :: r.1, (handles, v) :: r.2.1, r.2.2)

/-- The repair loop of `backgroundActivity` (lines 117-128): for each handle of
the needlist, if its `expire` is strictly before `now`, lock the chunk, run
`reReplication`, log the result (never acted upon), unlock, and continue with
the next handle. -/
def repairLoop (expireOf : ChunkHandle → Nat) (now : Nat)
    (repair : ChunkHandle → Option GfsError) : List ChunkHandle →
      List (ChunkHandle × Option GfsError)
  | [] => []
  | h :: rest =>
    if expireOf h < now then (h, repair h) :: repairLoop expireOf now repair rest
    else repairLoop expireOf now repair rest

/-- `Master.backgroundActivity` (lines 102-130): run the dead-node sweep; if it
returned an error, the whole cycle returns that error (the repair pass does not
run); otherwise run the repair pass over the needlist and return nil. -/
def backgroundActivity (env : BackgroundEnv) : BackgroundResult :=
  let s := sweepLoop env.removeServer env.detectDeadServers
  match s.2.2 with
  | some e => ⟨s.1, s.2.1, [], some e⟩
  | none =>
    ⟨s.1, s.2.1, repairLoop env.expireOf env.now env.reReplicationResult env.needlist, none⟩

/-! ## Fatality of failures in `Master.NewAndServe` (master.go lines 27-83) -/

/-- A failure event observed by `NewAndServe`'s goroutines: the result of
`net.Listen` (line 36), of `l.Accept` (line 54), or of one background cycle
(line 73). -/
inductive MasterEvent where
  | listenResult (err : Option GfsError)
  | acceptResult (err : Option GfsError)
  | backgroundResult (err : Option GfsError)
deriving DecidableEq, Repr

/-- Whether the event terminates the master process.  In master.go every one of
the three error paths calls `log.Fatal` (lines 38, 61, 75), which exits the
process; a nil result never does. -/
def eventFatal : MasterEvent → Bool
  | .listenResult e => e.isSome
  | .acceptResult e => e.isSome
  | .backgroundResult e => e.isSome

/-! ## Re-replication protocol (`Master.reReplication`, master.go lines 133-156) -/

/-- Environment for one `reReplication` run: `chooseReReplication` is
`csm.ChooseReReplication(handle)` returning (source, destination);
`rpcCreateChunk dst` is the result of the `ChunkServer.RPCCreateChunk` call at
the destination; `rpcSendCopy src dst` is the result of the
`ChunkServer.RPCSendCopy` call at the source. -/
structure ReRepEnv where
  chooseReReplication : Except GfsError (ServerAddress × ServerAddress)
  rpcCreateChunk : ServerAddress → Option GfsError
  rpcSendCopy : ServerAddress → ServerAddress → Option GfsError

/-- Observable outcome of `reReplication`: which downstream create/copy RPCs
were issued, which `cm.RegisterReplica` and `csm.AddChunk` registrations were
performed, and the returned error. -/
structure ReRepResult where
  createCalls : List ServerAddress
  copyCalls : List (ServerAddress × ServerAddress)
  registerReplicaCalls : List (ChunkHandle × ServerAddress)
  addChunkCalls : List (List ServerAddress × ChunkHandle)
  err : Option GfsError
deriving DecidableEq, Repr

/-- `Master.reReplication` (lines 133-156): choose (source, destination); on
error return it.  Ask the destination to create an empty chunk; on error return
it.  Ask the source to push a copy to the destination; on error return it.
Only then `RegisterReplica(handle, to)` and `AddChunk([to], handle)`. -/
def reReplication (env : ReRepEnv) (handle : ChunkHandle) : ReRepResult :=
  match env.chooseReReplication with
  | .error e => ⟨[], [], [], [], some e⟩
  | .ok (src, dst) =>
    match env.rpcCreateChunk dst with
    | some e => ⟨[dst], [], [], [], some e⟩
    | none =>
      match env.rpcSendCopy src dst with
      | some e => ⟨[dst], [(src, dst)], [], [], some e⟩
      | none => ⟨[dst], [(src, dst)], [(handle, dst)], [([dst], handle)], none⟩

/-! ## Heartbeat ingestion (`Master.RPCHeartbeat`, master.go lines 168-181) -/

/-- A downstream call the heartbeat handler can make, in the order issued. -/
inductive HBCall where
  | csmHeartbeat (addr : ServerAddress)
  | registerReplica (handle : ChunkHandle) (addr : ServerAddress)
  | addChunk (addrs : List ServerAddress) (handle : ChunkHandle)
  | extendLease (handle : ChunkHandle) (addr : ServerAddress)
deriving DecidableEq, Repr

/-- The reported-chunk loop of `RPCHeartbeat` (lines 170-175): for each chunk
the chunkserver newly reported, `RegisterReplica(v.Handle, addr)` then
`AddChunk([addr], v.Handle)`. -/
def reportLoop (addr : ServerAddress) : List ChunkHandle → List HBCall
  | [] => []
  | h :: rest => .registerReplica h addr :: .addChunk [addr] h :: reportLoop addr rest

/-- The lease-extension loop of `RPCHeartbeat` (lines 177-179): for each handle
carried in `args.LeaseExtensions`, `cm.ExtendLease(handle, addr)`. -/
def extendLoop (addr : ServerAddress) : List ChunkHandle → List HBCall
  | [] => []
  | h :: rest => .extendLease h addr :: extendLoop addr rest

/-- `Master.RPCHeartbeat` (lines 168-181): call `csm.Heartbeat(addr)` first; if
it reported chunks (a non-nil slice), register each; then process each
lease-extension handle; return nil.  `csmHeartbeat` is the oracle for
`csm.Heartbeat` (`none` models a nil report slice). -/
def RPCHeartbeat (csmHeartbeat : ServerAddress → Option (List ChunkHandle))
    (addr : ServerAddress) (leaseExtensions : List ChunkHandle) :
    List HBCall × Option GfsError :=
  let repCalls :=
    match csmHeartbeat addr with
    | none => []
    | some hs => reportLoop addr hs
  (.csmHeartbeat addr :: (repCalls ++ extendLoop addr leaseExtensions), none)

/-! ## Lease extension RPC (`Master.RPCExtendLease`, master.go lines 197-202) -/

/-- A chunk lease as the spec describes it: primary, secondaries, expiry. -/
structure Lease where
  primary : ServerAddress
  expire : Nat
  secondaries : List ServerAddress
deriving DecidableEq, Repr

/-- The `ExtendLeaseReply` message; `expire` is `none` while the handler has
not assigned the field (Go zero value). -/
structure ExtendLeaseReply where
  expire : Option Nat
deriving DecidableEq, Repr

/-- `Master.RPCExtendLease` (lines 197-202): the entire body that would read
and extend lease state is commented out in master.go; the handler touches
neither the lease state nor the reply and returns nil for every argument. -/
def RPCExtendLease (lease : Option Lease) (_handle : ChunkHandle)
    (_addr : ServerAddress) (reply : ExtendLeaseReply) :
    Option Lease × ExtendLeaseReply × Option GfsError :=
  (lease, reply, none)

/-! ## Chunk handle resolution/allocation (`Master.RPCGetChunkHandle`, master.go lines 265-301) -/

/-- Environment for one `RPCGetChunkHandle` call: `fileChunks` is the looked-up
file's `chunks` counter (`none` when `cwd.children` has no such file);
`chooseServers` is `csm.ChooseServers(gfs.DefaultNumReplicas)`;
`createChunk addrs` is the Go-style triple returned by
`cm.CreateChunk(path, addrs)` (handle, servers, error); `getChunk index` is the
Go-style pair returned by `cm.GetChunk(path, index)`. -/
structure ChunkHandleEnv where
  fileChunks : Option Nat
  chooseServers : Except GfsError (List ServerAddress)
  createChunk : List ServerAddress → ChunkHandle × List ServerAddress × Option GfsError
  getChunk : Nat → ChunkHandle × Option GfsError

/-- Observable outcome of `RPCGetChunkHandle`: the reply's handle field (Go
zero value 0 when never assigned), the returned error, the file's `chunks`
counter after the call, whether the new-chunk allocation branch was entered,
whether `cm.CreateChunk` was invoked, and the `csm.AddChunk` calls made. -/
structure ChunkHandleResult where
  replyHandle : ChunkHandle
  err : Option GfsError
  fileChunksAfter : Option Nat
  allocPath : Bool
  createChunkCalled : Bool
  addChunkCalls : List (List ServerAddress × ChunkHandle)
deriving DecidableEq, Repr

/-- `Master.RPCGetChunkHandle` (lines 265-301): fail if the file does not
exist.  If `index == file.chunks`: increment `file.chunks`, then
`ChooseServers` (error propagated), then `CreateChunk` (its handle is assigned
to the reply in the same multiple assignment; on error the handler logs
"[ignored]" and returns nil), then `AddChunk(addrs, handle)` and return nil.
Otherwise delegate to `cm.GetChunk(path, index)` and return its result. -/
def RPCGetChunkHandle (env : ChunkHandleEnv) (index : Nat) : ChunkHandleResult :=
  match env.fileChunks with
  | none => ⟨0, some (.other "file does not exist"), none, false, false, []⟩
  | some chunks =>
    if index = chunks then
      let chunks' := chunks + 1
      match env.chooseServers with
      | .error e => ⟨0, some e, some chunks', true, false, []⟩
      | .ok addrs =>
        match env.createChunk addrs with
        | (h, _, some _) => ⟨h, none, some chunks', true, true, []⟩
        | (h, addrs2, none) => ⟨h, none, some chunks', true, true, [(addrs2, h)]⟩
    else
      match env.getChunk index with
      | (h, e) => ⟨h, e, some chunks, false, false, []⟩

/-- Modelled from the spec: `ChunkManager.GetChunk(path, index)` is absent from
the provided sources; per the spec it is a "pure lookup" that "fails with
NotFound if no chunk exists at that index for that file".  `table` is the
file's index-to-handle map. -/
def specGetChunk (table : List (Nat × ChunkHandle)) (index : Nat) :
    ChunkHandle × Option GfsError :=
  match table.lookup index with
  | some h => (h, none)
  | none => (0, some .notFound)

/-! ## Theorems -/

/-- Claim C1: the claim says a failure from `RemoveServer` while scrubbing one
dead node must not prevent processing of the remaining dead nodes of the same
cycle.  The code (master.go lines 107-110) instead returns the error from the
sweep loop immediately: with dead servers s1 and s2 and `RemoveServer(s1)`
failing, `RemoveServer` is called only on s1, s2 is never processed, no
`RemoveChunks` scrub happens, and the cycle aborts with the error (the repair
pass does not run either). -/
theorem background_sweep_aborts_on_first_error :
    (backgroundActivity
        ⟨["s1", "s2"],
         fun v => if v = "s1" then .error .downstreamFailure else .ok [],
         [], fun _ => 0, 0, fun _ => none⟩).removeServerCalls = ["s1"] ∧
    "s2" ∉ (backgroundActivity
        ⟨["s1", "s2"],
         fun v => if v = "s1" then .error .downstreamFailure else .ok [],
         [], fun _ => 0, 0, fun _ => none⟩).removeServerCalls ∧
    (backgroundActivity
        ⟨["s1", "s2"],
         fun v => if v = "s1" then .error .downstreamFailure else .ok [],
         [], fun _ => 0, 0, fun _ => none⟩).err = some .downstreamFailure := by
  decide

/-- Claim C4: the claim says `RPCExtendLease` extends the lease expiry when the
requester is the current primary and returns the new expiry in the reply.  The
handler's body is entirely commented out in master.go (lines 198-200): even
when the requester equals the current primary, the lease state is returned
unchanged (expiry still 50), the reply's expiry field is never assigned, and
the call reports success. -/
theorem extendLease_rpc_is_noop :
    RPCExtendLease (some ⟨"primary1", 50, ["s2", "s3"]⟩) 1 "primary1" ⟨none⟩
      = (some ⟨"primary1", 50, ["s2", "s3"]⟩, ⟨none⟩, none) := rfl

/-- Helper for Claim C6: the handles the repair loop attempts are exactly the
needlist entries whose `expire` is strictly before `now`, whatever the repair
outcomes are. -/
theorem repairLoop_map_fst (expireOf : ChunkHandle → Nat) (now : Nat)
    (repair : ChunkHandle → Option GfsError) :
    ∀ handles : List ChunkHandle,
      (repairLoop expireOf now repair handles).map Prod.fst
        = handles.filter (fun h => decide (expireOf h < now))
  | [] => rfl
  | h :: rest => by
    by_cases hc : expireOf h < now
    · simp [repairLoop, hc, repairLoop_map_fst expireOf now repair rest]
    · simp [repairLoop, hc, repairLoop_map_fst expireOf now repair rest]

/-- Claim C6: in a background cycle whose dead-node sweep succeeded (so the
repair pass runs), a repair is attempted exactly for the needlist handles whose
repair-eligibility `expire` has already passed — and since the right-hand side
does not depend on `reReplicationResult`, a failure repairing one chunk never
removes the remaining handles from the pass. -/
theorem repair_pass_attempts_iff_expired (env : BackgroundEnv)
    (hok : (backgroundActivity env).err = none) :
    (backgroundActivity env).repairs.map Prod.fst
      = env.needlist.filter (fun h => decide (env.expireOf h < env.now)) := by
  unfold backgroundActivity at *
  rcases hs : (sweepLoop env.removeServer env.detectDeadServers).2.2 with _ | e
  · simp only [hs] at *
    exact repairLoop_map_fst env.expireOf env.now env.reReplicationResult env.needlist
  · simp [hs] at hok

/-- Witness for Claim C6: a concrete cycle with an empty sweep, needlist
[1, 2, 3], where only chunks 1 and 3 have expired eligibility and repairing
chunk 1 fails: chunks 1 and 3 are both attempted, chunk 2 is skipped. -/
theorem repair_pass_attempts_iff_expired_witness :
    (backgroundActivity
        ⟨[], fun _ => .ok [], [1, 2, 3], fun h => if h = 2 then 10 else 0, 5,
         fun h => if h = 1 then some .noAvailableServers else none⟩).repairs.map Prod.fst
      = [1, 3] :=
  repair_pass_attempts_iff_expired
    ⟨[], fun _ => .ok [], [1, 2, 3], fun h => if h = 2 then 10 else 0, 5,
     fun h => if h = 1 then some .noAvailableServers else none⟩ rfl

/-- Claim C7: the claim says only a low-level listener/transport failure is
fatal to the master process and an error from a background maintenance cycle
is recoverable.  In the code a background-cycle error hits `log.Fatal` (line
75) exactly like a listen error (line 38), and so does an accept error (line
61): a non-transport-initialization failure does terminate the process. -/
theorem background_error_is_fatal :
    eventFatal (.backgroundResult (some .downstreamFailure)) = true ∧
    eventFatal (.acceptResult (some (.other "accept error"))) = true ∧
    eventFatal (.backgroundResult none) = false := by
  decide

/-- Concrete environment for Claim C2: file with 0 chunks, placement succeeds,
but `cm.CreateChunk` fails with NoAvailableServers. -/
def c2Env : ChunkHandleEnv :=
  ⟨some 0, .ok ["s1", "s2", "s3"],
   fun _ => (0, [], some .noAvailableServers),
   fun _ => (0, some .notFound)⟩

/-- Claim C2 counterexample: the claim says an error returned by
`cm.CreateChunk` during a request-triggered allocation is propagated unchanged
to the RPC caller.  In the code (master.go lines 289-293) that error is only
logged ("[ignored]") and the handler returns nil: with `CreateChunk` failing,
the RPC reports success and no `AddChunk` registration happens. -/
theorem createChunk_error_reported_as_success :
    (c2Env.createChunk ["s1", "s2", "s3"]).2.2 = some .noAvailableServers ∧
    (RPCGetChunkHandle c2Env 0).createChunkCalled = true ∧
    (RPCGetChunkHandle c2Env 0).err = none ∧
    (RPCGetChunkHandle c2Env 0).addChunkCalls = [] := by
  decide

/-- Claim C2 as amended: during a request-triggered allocation
(index = file.chunks, `ChooseServers` succeeded), an error returned by
`cm.CreateChunk` is suppressed — the RPC returns success (nil), no `AddChunk`
registration is made, and the reply carries whatever handle value `CreateChunk`
returned alongside its error.  (An error from `ChooseServers`, by contrast, is
propagated; see the C10 theorem.) -/
theorem createChunk_error_suppressed (env : ChunkHandleEnv) (chunks : Nat)
    (addrs as : List ServerAddress) (h : ChunkHandle) (e : GfsError)
    (h1 : env.fileChunks = some chunks)
    (h2 : env.chooseServers = .ok addrs)
    (h3 : env.createChunk addrs = (h, as, some e)) :
    (RPCGetChunkHandle env chunks).err = none ∧
    (RPCGetChunkHandle env chunks).addChunkCalls = [] ∧
    (RPCGetChunkHandle env chunks).replyHandle = h := by
  simp [RPCGetChunkHandle, h1, h2, h3]

/-- Witness for the amended Claim C2 at the concrete environment `c2Env`. -/
theorem createChunk_error_suppressed_witness :
    (RPCGetChunkHandle c2Env 0).err = none ∧
    (RPCGetChunkHandle c2Env 0).addChunkCalls = [] ∧
    (RPCGetChunkHandle c2Env 0).replyHandle = 0 :=
  createChunk_error_suppressed c2Env 0 ["s1", "s2", "s3"] [] 0
    .noAvailableServers rfl rfl rfl

/-- Concrete environment for Claim C3: a file with exactly 1 chunk (index 0,
handle 7), with `cm.GetChunk` modelled from the spec. -/
def c3Env : ChunkHandleEnv :=
  ⟨some 1, .ok ["s1", "s2", "s3"],
   fun _ => (9, ["s1", "s2", "s3"], none),
   specGetChunk [(0, 7)]⟩

/-- Claim C3 counterexample: the claim says an index strictly greater than the
file's chunk count fails with InvalidRequest.  The code (master.go line 297)
routes every non-equal index to `cm.GetChunk`, whose spec-modelled lookup fails
with NotFound: requesting index 2 on a 1-chunk file yields NotFound, not
InvalidRequest (the no-allocation half of the claim does hold). -/
theorem nonsequential_index_not_invalidRequest :
    (RPCGetChunkHandle c3Env 2).err = some .notFound ∧
    (RPCGetChunkHandle c3Env 2).err ≠ some .invalidRequest ∧
    (RPCGetChunkHandle c3Env 2).allocPath = false ∧
    (RPCGetChunkHandle c3Env 2).createChunkCalled = false := by
  decide

/-- Claim C3 as amended: the allocation path is entered if and only if the
requested index equals the file's current chunk count; for every index
strictly greater than the chunk count (with `cm.GetChunk` modelled from the
spec and, consistently, holding no entry at that index) the call performs no
allocation and fails with the lookup's NotFound error — not InvalidRequest. -/
theorem nonsequential_index_fails_notFound (env : ChunkHandleEnv)
    (chunks index : Nat) (table : List (Nat × ChunkHandle))
    (h1 : env.fileChunks = some chunks)
    (h2 : env.getChunk = specGetChunk table)
    (h3 : chunks < index)
    (h4 : table.lookup index = none) :
    (∀ j, (RPCGetChunkHandle env j).allocPath = true ↔ j = chunks) ∧
    (RPCGetChunkHandle env index).allocPath = false ∧
    (RPCGetChunkHandle env index).createChunkCalled = false ∧
    (RPCGetChunkHandle env index).addChunkCalls = [] ∧
    (RPCGetChunkHandle env index).err = some .notFound := by
  have hne : index ≠ chunks := by omega
  refine ⟨?_, ?_, ?_, ?_, ?_⟩
  · intro j
    by_cases hj : j = chunks
    · subst hj
      simp only [RPCGetChunkHandle, h1, if_pos rfl]
      rcases hcs : env.chooseServers with e | addrs
      · simp [hcs]
      · rcases hc : env.createChunk addrs with ⟨ch, cas, ce⟩
        cases ce <;> simp [hcs, hc]
    · rcases hg : env.getChunk j with ⟨gh, ge⟩
      simp [RPCGetChunkHandle, h1, if_neg hj, hg, hj]
  all_goals
    simp [RPCGetChunkHandle, h1, if_neg hne, h2, specGetChunk, h4]

/-- Witness for the amended Claim C3 at the concrete environment `c3Env`,
index 2 on a 1-chunk file. -/
theorem nonsequential_index_fails_notFound_witness :
    (RPCGetChunkHandle c3Env 2).allocPath = false ∧
    (RPCGetChunkHandle c3Env 2).err = some .notFound ∧
    ((RPCGetChunkHandle c3Env 1).allocPath = true ↔ 1 = 1) := by
  have h := nonsequential_index_fails_notFound c3Env 1 2 [(0, 7)] rfl rfl
    (by decide) (by decide)
  exact ⟨h.2.1, h.2.2.2.2, h.1 1⟩

/-- Concrete environment for Claim C10: file with 4 chunks and no live servers,
so `ChooseServers` fails. -/
def c10Env : ChunkHandleEnv :=
  ⟨some 4, .error .noAvailableServers,
   fun _ => (0, [], none),
   fun _ => (0, some .notFound)⟩

/-- Claim C10: on the allocation path (index = file.chunks), `file.chunks` is
incremented first — the counter after the call is chunks + 1 no matter how
`ChooseServers` or `CreateChunk` fare — and it is never rolled back: when
`ChooseServers` fails the error is propagated with the counter already
incremented and nothing created, and when `CreateChunk` fails the counter stays
incremented, no `AddChunk` registration is made, yet the RPC reports success. -/
theorem chunk_count_not_rolled_back (env : ChunkHandleEnv) (chunks : Nat)
    (h1 : env.fileChunks = some chunks) :
    (RPCGetChunkHandle env chunks).fileChunksAfter = some (chunks + 1) ∧
    (∀ e, env.chooseServers = .error e →
      (RPCGetChunkHandle env chunks).err = some e ∧
      (RPCGetChunkHandle env chunks).createChunkCalled = false ∧
      (RPCGetChunkHandle env chunks).addChunkCalls = []) ∧
    (∀ addrs as h e, env.chooseServers = .ok addrs →
      env.createChunk addrs = (h, as, some e) →
      (RPCGetChunkHandle env chunks).err = none ∧
      (RPCGetChunkHandle env chunks).addChunkCalls = []) := by
  refine ⟨?_, ?_, ?_⟩
  · rcases hcs : env.chooseServers with e | addrs
    · simp [RPCGetChunkHandle, h1, hcs]
    · rcases hc : env.createChunk addrs with ⟨ch, cas, ce⟩
      cases ce <;> simp [RPCGetChunkHandle, h1, hcs, hc]
  · intro e he
    simp [RPCGetChunkHandle, h1, he]
  · intro addrs as h e hcs hc
    simp [RPCGetChunkHandle, h1, hcs, hc]

/-- Witness for Claim C10 at `c10Env`: `ChooseServers` fails, the error is
propagated, and the chunk counter is nonetheless already 5. -/
theorem chunk_count_not_rolled_back_witness :
    (RPCGetChunkHandle c10Env 4).fileChunksAfter = some 5 ∧
    (RPCGetChunkHandle c10Env 4).err = some .noAvailableServers := by
  have h := chunk_count_not_rolled_back c10Env 4 rfl
  exact ⟨h.1, (h.2.1 .noAvailableServers rfl).1⟩

/-- Claim C5: the re-replication protocol runs in order — first the empty
chunk is created at the chosen destination, then (only if that succeeded) the
source pushes a copy to the destination — and `RegisterReplica`/`AddChunk`
happen exactly when both downstream calls succeed; on any failure, of the
selection or of either downstream call, no registration is made, leaving the
master's replica-location state for the chunk unchanged. -/
theorem reReplication_registers_iff_both_succeed (env : ReRepEnv)
    (handle : ChunkHandle) :
    ((reReplication env handle).err ≠ none →
      (reReplication env handle).registerReplicaCalls = [] ∧
      (reReplication env handle).addChunkCalls = []) ∧
    (∀ src dst, env.chooseReReplication = .ok (src, dst) →
      (reReplication env handle).createCalls = [dst] ∧
      ((reReplication env handle).err = none ↔
        env.rpcCreateChunk dst = none ∧ env.rpcSendCopy src dst = none) ∧
      (∀ e, env.rpcCreateChunk dst = some e →
        (reReplication env handle).copyCalls = [] ∧
        (reReplication env handle).err = some e) ∧
      (env.rpcCreateChunk dst = none →
        (reReplication env handle).copyCalls = [(src, dst)]) ∧
      ((reReplication env handle).err = none →
        (reReplication env handle).registerReplicaCalls = [(handle, dst)] ∧
        (reReplication env handle).addChunkCalls = [([dst], handle)])) := by
  rcases hch : env.chooseReReplication with e | ⟨src0, dst0⟩
  · refine ⟨fun _ => by simp [reReplication, hch], fun src dst hok => ?_⟩
    exact Except.noConfusion hok
  · refine ⟨?_, ?_⟩
    · intro hne
      rcases hcr : env.rpcCreateChunk dst0 with _ | ce
      · rcases hsc : env.rpcSendCopy src0 dst0 with _ | se
        · exact absurd (by simp [reReplication, hch, hcr, hsc]) hne
        · simp [reReplication, hch, hcr, hsc]
      · simp [reReplication, hch, hcr]
    · intro src dst hok
      simp only [Except.ok.injEq, Prod.mk.injEq] at hok
      obtain ⟨hs, hd⟩ := hok
      subst hs
      subst hd
      rcases hcr : env.rpcCreateChunk dst0 with _ | ce
      · rcases hsc : env.rpcSendCopy src0 dst0 with _ | se
        · simp [reReplication, hch, hcr, hsc]
        · simp [reReplication, hch, hcr, hsc]
      · simp [reReplication, hch, hcr]

/-- Concrete environment for the Claim C5 witness: selection picks source "s"
and destination "d" and both downstream RPCs succeed. -/
def c5Env : ReRepEnv :=
  ⟨.ok ("s", "d"), fun _ => none, fun _ _ => none⟩

/-- Witness for Claim C5 at `c5Env`: with both downstream calls succeeding the
create RPC went to the destination "d" and exactly the registrations
`RegisterReplica(5, "d")` and `AddChunk(["d"], 5)` were performed. -/
theorem reReplication_registers_iff_both_succeed_witness :
    (reReplication c5Env 5).createCalls = ["d"] ∧
    (reReplication c5Env 5).registerReplicaCalls = [(5, "d")] ∧
    (reReplication c5Env 5).addChunkCalls = [(["d"], 5)] := by
  have h := (reReplication_registers_iff_both_succeed c5Env 5).2 "s" "d" rfl
  obtain ⟨hcreate, _, _, _, hreg⟩ := h
  exact ⟨hcreate, (hreg rfl).1, (hreg rfl).2⟩

/-- Helper for Claim C8: every reported handle yields its `RegisterReplica`
call in the report loop's trace. -/
theorem mem_reportLoop_register (addr : ServerAddress) :
    ∀ (hs : List ChunkHandle) (h : ChunkHandle), h ∈ hs →
      HBCall.registerReplica h addr ∈ reportLoop addr hs
  | [], _, hm => nomatch hm
  | _ :: rest, h, hm => by
    rcases List.mem_cons.mp hm with rfl | hm'
    · exact List.mem_cons_self _ _
    · exact List.mem_cons_of_mem _ (List.mem_cons_of_mem _
        (mem_reportLoop_register addr rest h hm'))

/-- Helper for Claim C8: every reported handle yields its `AddChunk` call in
the report loop's trace. -/
theorem mem_reportLoop_addChunk (addr : ServerAddress) :
    ∀ (hs : List ChunkHandle) (h : ChunkHandle), h ∈ hs →
      HBCall.addChunk [addr] h ∈ reportLoop addr hs
  | [], _, hm => nomatch hm
  | _ :: rest, h, hm => by
    rcases List.mem_cons.mp hm with rfl | hm'
    · exact List.mem_cons_of_mem _ (List.mem_cons_self _ _)
    · exact List.mem_cons_of_mem _ (List.mem_cons_of_mem _
        (mem_reportLoop_addChunk addr rest h hm'))

/-- Helper for Claim C8: every lease-extension handle yields its `ExtendLease`
call in the extension loop's trace. -/
theorem mem_extendLoop (addr : ServerAddress) :
    ∀ (hs : List ChunkHandle) (h : ChunkHandle), h ∈ hs →
      HBCall.extendLease h addr ∈ extendLoop addr hs
  | [], _, hm => nomatch hm
  | _ :: rest, h, hm => by
    rcases List.mem_cons.mp hm with rfl | hm'
    · exact List.mem_cons_self _ _
    · exact List.mem_cons_of_mem _ (mem_extendLoop addr rest h hm')

/-- Claim C8: a heartbeat carrying lease extensions is processed in order —
the very first downstream call records liveness via `csm.Heartbeat`, then the
report loop issues `RegisterReplica` and `AddChunk` for each newly reported
replica, then the extension loop issues `ExtendLease` for each carried handle,
and the handler returns success (nil). -/
theorem heartbeat_processing_order
    (csm : ServerAddress → Option (List ChunkHandle)) (addr : ServerAddress)
    (les rep : List ChunkHandle) (hrep : csm addr = some rep) :
    RPCHeartbeat csm addr les
      = (.csmHeartbeat addr :: (reportLoop addr rep ++ extendLoop addr les),
         none) ∧
    (∀ h ∈ rep, HBCall.registerReplica h addr ∈ reportLoop addr rep ∧
      HBCall.addChunk [addr] h ∈ reportLoop addr rep) ∧
    (∀ h ∈ les, HBCall.extendLease h addr ∈ extendLoop addr les) := by
  refine ⟨by simp [RPCHeartbeat, hrep], fun h hm => ?_, fun h hm => ?_⟩
  · exact ⟨mem_reportLoop_register addr rep h hm,
      mem_reportLoop_addChunk addr rep h hm⟩
  · exact mem_extendLoop addr les h hm

/-- Witness for Claim C8: a concrete heartbeat from "a" reporting chunk 3 and
asking to extend the lease of chunk 7 produces exactly the ordered trace
Heartbeat, RegisterReplica(3, "a"), AddChunk(["a"], 3), ExtendLease(7, "a"),
and returns success. -/
theorem heartbeat_processing_order_witness :
    RPCHeartbeat (fun _ => some [3]) "a" [7]
      = (.csmHeartbeat "a" :: (reportLoop "a" [3] ++ extendLoop "a" [7]),
         none) :=
  (heartbeat_processing_order (fun _ => some [3]) "a" [7] [3] rfl).1

end GoGFS
